import Mathlib

/-!
Shallow embedding of the django-tasks-gcp repository (backend.py, authn.py,
views.py, results.py, utils.py) and proofs about the frozen claims on its
specification.

Conventions of the embedding:
* Python machine state is passed explicitly; timestamps are abstract clock
  ticks (`Nat`).
* Fallible Python code returns `Except`: `.error` marks an exception that the
  Python code raises (propagates to its caller), `.ok` a normal return.
* External collaborators (the Google Cloud Tasks client, the OIDC token
  verifier, Django transaction commit hooks, `json.loads`/`json.dumps`,
  `traceback.format_exception`) are modelled at their documented boundary and
  say so in their doc comments; everything else is translated directly from
  the repository source.
-/

/-- JSON-compatible Python values, as carried in task args/kwargs and request
bodies. -/
inductive PyVal where
  | pstr (s : String)
  | pint (n : Int)
  | pbool (b : Bool)
  | pnone
  | plist (items : List PyVal)
  | pdict (entries : List (String × PyVal))

/-- First-match lookup in a Python dict modelled as an association list
(Python dict keys are unique, so first match is the match). -/
def pyGet (d : List (String × PyVal)) (key : String) : Option PyVal :=
  match d with
  | [] => none
  | (k, v) :: rest => if k = key then some v else pyGet rest key

/-- String-valued claim lookup, for OIDC id-token claim dictionaries. -/
def lookupStr (d : List (String × String)) (key : String) : Option String :=
  match d with
  | [] => none
  | (k, v) :: rest => if k = key then some v else lookupStr rest key

/-- Task result statuses. The source only ever constructs or assigns READY,
RUNNING, SUCCESSFUL and FAILED (see backend.py and views.py); ENQUEUED is the
extra state named by the specification's state model and is included so that
the spec's claimed READY → ENQUEUED transition can be stated. -/
inductive TaskResultStatus where
  | READY
  | ENQUEUED
  | RUNNING
  | SUCCESSFUL
  | FAILED
deriving DecidableEq

/-- The data of a raised Python exception that the receiver observes: the
class's module and qualified name (read by utils.get_module_path via
type(e)) and the exception message (rendered into the formatted traceback). -/
structure ExcInfo where
  module : String
  qualname : String
  message : String

/-- Outcome of calling a task body: a normal return value or a raised
exception. -/
inductive ExecOutcome where
  | ret (value : PyVal)
  | raise (e : ExcInfo)

/-- The run_after attribute of a task: an absolute timestamp or a relative
delay (datetime vs timedelta in the source). -/
inductive RunAfter where
  | absolute (t : Nat)
  | delta (d : Nat)

/-- A registered task definition (the django.tasks Task object as consumed by
backend.py and views.py): its stable module path, queue name, optional
run_after, whether it takes a TaskContext, the alias of its backend, and its
body. The body is the task function itself, an external callable; `task.call`
with a context passes the same positional/keyword arguments, so the body is
modelled as a function of those arguments. -/
structure TaskDef where
  module_path : String
  queue_name : String
  run_after : Option RunAfter
  takes_context : Bool
  backend_alias : String
  body : List PyVal → List (String × PyVal) → ExecOutcome

/-- A structured error record (django.tasks.base.TaskError as constructed in
views.py). -/
structure TaskError where
  exception_class_path : String
  traceback : String

/-- The TaskResult record with exactly the fields the repository constructs
and mutates (backend.py enqueue, views.py get_task_result/run_task).
`return_value` models the `_return_value` slot set on success. -/
structure TaskResult where
  task : TaskDef
  id : Option String
  status : TaskResultStatus
  enqueued_at : Option Nat
  started_at : Option Nat
  last_attempted_at : Option Nat
  finished_at : Option Nat
  args : List PyVal
  kwargs : List (String × PyVal)
  backend : String
  errors : List TaskError
  worker_ids : List String
  return_value : Option PyVal

/-- results.py: CloudTaskResult extends TaskResult with the externally
supplied retry_count. -/
structure CloudTaskResult extends TaskResult where
  retry_count : Int

/-- results.py: the attempts property. -/
def CloudTaskResult.attempts (r : CloudTaskResult) : Int :=
  r.retry_count + 1

/-- utils.get_module_path applied to the exception's class: the f-string of
`__module__` and `__qualname__`. -/
def get_module_path (e : ExcInfo) : String :=
  e.module ++ "." ++ e.qualname

/-- Modelled from the documented output of the stdlib
`traceback.format_exception` (an external collaborator): the joined string
ends with the line `module.qualname: message`, after the frame listing. -/
def format_exception_str (e : ExcInfo) : String :=
  "Traceback (most recent call last):\n" ++ e.module ++ "." ++ e.qualname ++ ": "
    ++ e.message ++ "\n"

/-- utils.get_exception_traceback: join of format_exception. -/
def get_exception_traceback (e : ExcInfo) : String :=
  format_exception_str e

/-- Worker for pySplitSpace: split at every space character, keeping empty
fields, accumulating the current field in reverse. -/
def pySplitSpaceAux (cs : List Char) (acc : List Char) : List String :=
  match cs with
  | [] => [String.mk acc.reverse]
  | c :: rest =>
    if c = ' ' then String.mk acc.reverse :: pySplitSpaceAux rest []
    else pySplitSpaceAux rest (c :: acc)

/-- Python str.split with the explicit single-space separator, as in
`token.split(" ")`: splits at every space and keeps empty fields. -/
def pySplitSpace (s : String) : List String :=
  pySplitSpaceAux s.toList []

/-- Outcome of the external verifier `id_token.verify_oauth2_token`:
either the decoded claim dictionary, or any raised exception. -/
inductive VerifyOutcome where
  | ok (idinfo : List (String × String))
  | raise

/-- Exceptions that OIDCTokenAuth.authenticate itself can raise (as opposed
to returning None). -/
inductive AuthnError where
  | indexError
deriving DecidableEq

/-- authn.py OIDCTokenAuth.authenticate. `verify` is the external
id_token.verify_oauth2_token; `authorization` is the request's Authorization
header (`none` when the header is missing, and the empty string is falsy like
a missing header). The try block covers only the verification, the
email-claim comparison and the return; the `token.split(" ")[1]` indexing sits
before the try, so a header with no second space-separated word raises
IndexError out of the method. -/
def OIDCTokenAuth.authenticate (service_account_email : Option String)
    (verify : String → VerifyOutcome) (authorization : Option String) :
    Except AuthnError (Option (List (String × String))) :=
  match authorization with
  | none => .ok none
  | some header =>
    if header = "" then .ok none
    else
      match (pySplitSpace header).get? 1 with
      | none => .error .indexError
      | some token =>
        match verify token with
        | .raise => .ok none
        | .ok idinfo =>
          match service_account_email with
          | none => .ok (some idinfo)
          | some sae =>
            if sae = "" then .ok (some idinfo)
            else
              match lookupStr idinfo "email" with
              | none => .ok none
              | some em => if em ≠ sae then .ok none else .ok (some idinfo)

/-- A configuration error (django.core.exceptions.ImproperlyConfigured). -/
inductive ConfigError where
  | improperlyConfigured (msg : String)
deriving DecidableEq

/-- The OPTIONS dictionary of a CloudTasksBackend, with each key's presence
made explicit (dict.get semantics). For VIEW_AUTHN the source distinguishes a
missing key (sentinel -1), an explicit None, and a class path, hence the
nested Option. -/
structure BackendOptions where
  project_id : Option String
  location : Option String
  credentials : Option String
  default_target : Option String
  view_authn : Option (Option String)
  view_authn_params : List (String × String)
  enqueue_on_commit : Bool

/-- The configured view-authentication class, after import_string: the class
path together with the VIEW_AUTHN_PARAMS constructor arguments (instantiation
of the imported class is external and modelled by carrying both). -/
structure ViewAuthnRef where
  class_path : String
  params : List (String × String)

/-- backend.py CloudTasksBackend.get_view_authn. -/
def CloudTasksBackend.get_view_authn (o : BackendOptions) :
    Except ConfigError (Option ViewAuthnRef) :=
  match o.view_authn with
  | none =>
    .error (.improperlyConfigured
      "The view authentication class must be specified. To turn off authentication, set VIEW_AUTHN to None.")
  | some none => .ok none
  | some (some path) => .ok (some ⟨path, o.view_authn_params⟩)

/-- backend.py CloudTasksBackend.get_project_id: a plain dict.get, absent key
gives None and nothing is raised. -/
def CloudTasksBackend.get_project_id (o : BackendOptions) : Option String :=
  o.project_id

/-- backend.py CloudTasksBackend.get_location: a plain dict.get. -/
def CloudTasksBackend.get_location (o : BackendOptions) : Option String :=
  o.location

/-- backend.py CloudTasksBackend.get_default_target: raises
ImproperlyConfigured when the option is absent. -/
def CloudTasksBackend.get_default_target (o : BackendOptions) :
    Except ConfigError String :=
  match o.default_target with
  | none => .error (.improperlyConfigured "The default target must be specified.")
  | some target => .ok target

/-- backend.py CloudTasksBackend.get_enqueue_on_commit: dict.get with default
False. -/
def CloudTasksBackend.get_enqueue_on_commit (o : BackendOptions) : Bool :=
  o.enqueue_on_commit

/-- Python string interpolation of a possibly-None value: None renders as the
string None. -/
def optStr : Option String → String
  | none => "None"
  | some s => s

/-- The external CloudTasksClient.queue_path: the documented queue resource
path format. -/
def queue_path (project location : Option String) (queue : String) : String :=
  "projects/" ++ optStr project ++ "/locations/" ++ optStr location
    ++ "/queues/" ++ queue

/-- The external CloudTasksClient.task_path: the documented task resource
path format. -/
def task_path (project location : Option String) (queue task_id : String) : String :=
  queue_path project location queue ++ "/tasks/" ++ task_id

/-- backend.py CloudTasksBackend.get_parent_path. -/
def CloudTasksBackend.get_parent_path (o : BackendOptions) (queue_name : String) :
    String :=
  queue_path (CloudTasksBackend.get_project_id o)
    (CloudTasksBackend.get_location o) queue_name

/-- backend.py CloudTasksBackend.get_task_path. -/
def CloudTasksBackend.get_task_path (o : BackendOptions)
    (queue_name task_id : String) : String :=
  task_path (CloudTasksBackend.get_project_id o)
    (CloudTasksBackend.get_location o) queue_name task_id

/-- The wire payload built in enqueue. json.dumps is the external stdlib
encoder, so the body is modelled as the structured data it encodes. -/
structure TaskData where
  task_path : String
  args : List PyVal
  kwargs : List (String × PyVal)

/-- The http_request portion of the Cloud Tasks task dictionary built in
enqueue. -/
structure CloudHttpRequest where
  http_method : String
  url : String
  headers : List (String × String)
  body : TaskData

/-- The Cloud Tasks task dictionary built in enqueue. -/
structure CloudTask where
  http_request : CloudHttpRequest
  name : String
  schedule_time : Option Nat

/-- A create_task request submitted to the external queue client. -/
structure CreateTaskRequest where
  parent : String
  task : CloudTask

/-- Lifecycle events sent on the django.tasks signals. Each carries the
TaskResult object in the state it had when the signal fired. -/
inductive Event where
  | task_enqueued (result : TaskResult)
  | task_started (result : CloudTaskResult)
  | task_finished (result : CloudTaskResult)

/-- Exceptions an enqueue call can raise: a validation failure from the
external BaseTaskBackend.validate_task hook, a configuration error, or a
failure of the external create_task call, which propagates unmodified. -/
inductive EnqueueError where
  | invalidTask
  | config (e : ConfigError)
  | queueClientError
deriving DecidableEq

/-- The data captured by the local _enqueue closure in enqueue: the backend
options, the task, the cloud_task dictionary built so far, and the READY
TaskResult. -/
structure PendingEnqueue where
  backendOptions : BackendOptions
  task : TaskDef
  cloud_task : CloudTask
  result : TaskResult

/-- The body of the local _enqueue closure in backend.py enqueue: compute the
schedule time from run_after (adding now to a timedelta), call the external
create_task (parent path computed at call time), then set enqueued_at on the
result and send task_enqueued. `now` is the clock at the moment the closure
runs; `createOk` is whether the external create_task call succeeds. -/
def runEnqueueHook (p : PendingEnqueue) (now : Nat) (createOk : Bool) :
    Except EnqueueError (TaskResult × CreateTaskRequest × Event) :=
  let ct :=
    match p.task.run_after with
    | none => p.cloud_task
    | some (.absolute t) => { p.cloud_task with schedule_time := some t }
    | some (.delta d) => { p.cloud_task with schedule_time := some (now + d) }
  if createOk then
    let r := { p.result with enqueued_at := some now }
    .ok (r, ⟨CloudTasksBackend.get_parent_path p.backendOptions p.task.queue_name, ct⟩,
      .task_enqueued r)
  else
    .error .queueClientError

/-- Ambient inputs of one enqueue call: the random id from get_random_string,
the clock, and the outcome of the external create_task call. -/
structure EnqueueEnv where
  freshId : String
  now : Nat
  createOk : Bool

/-- Observable outcome of a returning enqueue call: the returned TaskResult,
the create_task requests sent synchronously, the events emitted synchronously,
and the commit hooks registered with transaction.on_commit. -/
structure EnqueueOutcome where
  result : TaskResult
  requests : List CreateTaskRequest
  events : List Event
  hooks : List PendingEnqueue

/-- backend.py CloudTasksBackend.enqueue. `taskValid` is the verdict of the
external BaseTaskBackend.validate_task hook (which raises on an invalid
task). -/
def CloudTasksBackend.enqueue (o : BackendOptions) (backendAlias : String)
    (task : TaskDef) (args : List PyVal) (kwargs : List (String × PyVal))
    (taskValid : Bool) (env : EnqueueEnv) : Except EnqueueError EnqueueOutcome :=
  if taskValid then
    let task_result : TaskResult :=
      { task := task, id := some env.freshId, status := .READY,
        enqueued_at := none, started_at := none, last_attempted_at := none,
        finished_at := none, args := args, kwargs := kwargs, backend := backendAlias,
        errors := [], worker_ids := [], return_value := none }
    let task_data : TaskData := ⟨task.module_path, args, kwargs⟩
    match CloudTasksBackend.get_default_target o with
    | .error e => .error (.config e)
    | .ok url =>
      let cloud_task : CloudTask :=
        { http_request :=
            { http_method := "POST", url := url,
              headers := [("Content-type", "application/json")],
              body := task_data },
          name := CloudTasksBackend.get_task_path o task.queue_name env.freshId,
          schedule_time := none }
      let pending : PendingEnqueue := ⟨o, task, cloud_task, task_result⟩
      if CloudTasksBackend.get_enqueue_on_commit o then
        .ok { result := task_result, requests := [], events := [], hooks := [pending] }
      else
        match runEnqueueHook pending env.now env.createOk with
        | .error e => .error e
        | .ok (r, req, ev) =>
          .ok { result := r, requests := [req], events := [ev], hooks := [] }
  else
    .error .invalidTask

/-- Modelled from the spec: Django transaction.on_commit runs the registered
hooks, in registration order, immediately after the transaction commits. An
exception from a hook propagates. -/
def commitHooks (hs : List PendingEnqueue) (now : Nat) (createOk : Bool) :
    Except EnqueueError (List CreateTaskRequest × List Event) :=
  match hs with
  | [] => .ok ([], [])
  | p :: rest =>
    match runEnqueueHook p now createOk with
    | .error e => .error e
    | .ok (_, req, ev) =>
      match commitHooks rest now createOk with
      | .error e => .error e
      | .ok (reqs, evs) => .ok (req :: reqs, ev :: evs)

/-- Modelled from the spec: if the transaction rolls back, the registered
commit hooks never run, so no create_task request is sent and no event is
emitted. -/
def rollbackHooks (_hs : List PendingEnqueue) :
    List CreateTaskRequest × List Event :=
  ([], [])

/-- Exceptions the TaskView can raise while handling a callback:
json.JSONDecodeError from parse_content, ValueError from validate_input or
from the int() conversion in get_task_result, ImportError from import_string
in get_task, and django.core.exceptions.SuspiciousOperation from get_task. -/
inductive ViewError where
  | jsonDecodeError
  | valueError (msg : String)
  | importError
  | suspiciousOperation (msg : String)
deriving DecidableEq

/-- The raw request body at the json.loads boundary (the stdlib JSON decoder
is external): either a body json.loads rejects, or one that decodes to the
given object. -/
inductive RequestBody where
  | malformed
  | json (data : List (String × PyVal))

/-- The parts of the inbound HTTP request the view reads. -/
structure ViewRequest where
  body : RequestBody
  task_name_header : Option String
  retry_count_header : Option String

/-- views.py Input: the validated body shape. -/
structure Input where
  task_path : String
  args : List PyVal
  kwargs : List (String × PyVal)

/-- The identity returned by the authentication gate: the AnonymousUser used
when authentication is disabled, or the verified token claims. -/
inductive Identity where
  | anonymousUser
  | idinfo (claims : List (String × String))

/-- Outcome of django.utils.module_loading.import_string (external) on a task
path: an ImportError, a resolved object that is a Task, or a resolved object
that is not one. -/
inductive ResolveOutcome where
  | importFail
  | foundTask (t : TaskDef)
  | foundNonTask

/-- views.py TaskView.parse_content: json.loads of the raw body. -/
def TaskView.parse_content (b : RequestBody) :
    Except ViewError (List (String × PyVal)) :=
  match b with
  | .malformed => .error .jsonDecodeError
  | .json d => .ok d

/-- views.py TaskView.validate_input: key presence and isinstance checks, in
source order, then Input(**data). -/
def TaskView.validate_input (d : List (String × PyVal)) :
    Except ViewError Input :=
  match pyGet d "task_path" with
  | none => .error (.valueError "Missing task_path in request body.")
  | some tp =>
    match tp with
    | .pstr path =>
      match pyGet d "args" with
      | none => .error (.valueError "Missing args in request body.")
      | some a =>
        match a with
        | .plist args =>
          match pyGet d "kwargs" with
          | none => .error (.valueError "Missing kwargs in request body.")
          | some k =>
            match k with
            | .pdict kwargs => .ok ⟨path, args, kwargs⟩
            | _ => .error (.valueError "kwargs must be a dict.")
        | _ => .error (.valueError "args must be a list.")
    | _ => .error (.valueError "task_path must be a string.")

/-- views.py TaskView.get_task: import_string on the task path (ImportError
propagates), then the isinstance Task check (SuspiciousOperation). -/
def TaskView.get_task (resolve : String → ResolveOutcome) (data : Input) :
    Except ViewError TaskDef :=
  match resolve data.task_path with
  | .importFail => .error .importError
  | .foundNonTask =>
    .error (.suspiciousOperation (data.task_path ++ " is not a valid task."))
  | .foundTask t => .ok t

/-- Value of a digit string, most significant first. -/
def pyDigitsVal (cs : List Char) : Int :=
  cs.foldl (fun n c => n * 10 + Int.ofNat (c.toNat - 48)) 0

/-- Strip leading and trailing whitespace from a character list. -/
def pyStripChars (cs : List Char) : List Char :=
  ((cs.dropWhile Char.isWhitespace).reverse.dropWhile Char.isWhitespace).reverse

/-- Python int() applied to a string: optional surrounding whitespace, an
optional sign, then decimal digits; anything else raises ValueError.
(Underscore digit separators, which Python also accepts, are not modelled; no
claim depends on them.) -/
def pyIntOfString (s : String) : Option Int :=
  let t := pyStripChars s.toList
  let signed :=
    match t with
    | '-' :: rest => (true, rest)
    | '+' :: rest => (false, rest)
    | _ => (false, t)
  if signed.2 = [] then none
  else if signed.2.all Char.isDigit then
    some (if signed.1 then - pyDigitsVal signed.2 else pyDigitsVal signed.2)
  else none

/-- The retry-count conversion in views.py get_task_result:
int(request.headers.get("X-CloudTasks-TaskRetryCount", 0)). An absent header
gives the int default 0; a present header goes through int(), whose failure
is a ValueError that get_task_result does not catch. -/
def parseRetryCount (header : Option String) : Except ViewError Int :=
  match header with
  | none => .ok 0
  | some s =>
    match pyIntOfString s with
    | some n => .ok n
    | none => .error (.valueError ("invalid literal for int() with base 10: " ++ s))

/-- views.py TaskView.get_task_result: read the task-name header as the id,
convert the retry-count header, and construct the RUNNING CloudTaskResult
with started_at = now. -/
def TaskView.get_task_result (req : ViewRequest) (data : Input) (task : TaskDef)
    (nowStart : Nat) : Except ViewError CloudTaskResult :=
  match parseRetryCount req.retry_count_header with
  | .error e => .error e
  | .ok rc =>
    .ok { task := task, id := req.task_name_header, status := .RUNNING,
          started_at := some nowStart, finished_at := none,
          backend := task.backend_alias, args := data.args,
          kwargs := data.kwargs, retry_count := rc, enqueued_at := none,
          last_attempted_at := none, errors := [], worker_ids := [],
          return_value := none }

/-- views.py TaskView.run_task: send task_started, call the task body (with a
TaskContext wrapping the result when takes_context, which does not change the
arguments the body receives), then either record the return value and mark
SUCCESSFUL, or append the TaskError record and mark FAILED; either way set
finished_at and send task_finished. Returns the final result and the emitted
events in order. -/
def TaskView.run_task (r : CloudTaskResult) (data : Input) (nowFinish : Nat) :
    CloudTaskResult × List Event :=
  let outcome :=
    if r.task.takes_context then r.task.body data.args data.kwargs
    else r.task.body data.args data.kwargs
  match outcome with
  | .ret v =>
    let r2 := { r with return_value := some v, status := .SUCCESSFUL,
                       finished_at := some nowFinish }
    (r2, [.task_started r, .task_finished r2])
  | .raise e =>
    let r2 := { r with
      errors := r.errors ++ [⟨get_module_path e, get_exception_traceback e⟩],
      finished_at := some nowFinish, status := .FAILED }
    (r2, [.task_started r, .task_finished r2])

/-- The steps of TaskView.post, in the order the source performs them, used
to state ordering properties. -/
inductive Step where
  | auth
  | parse
  | validate
  | resolve
  | buildResult
  | run
  | respond
deriving DecidableEq

/-- An HTTP JsonResponse with body of the form success true or false. -/
structure Response where
  status_code : Nat
  success : Bool
deriving DecidableEq

/-- Ambient inputs of one callback: the identity produced by the backend's
configured authentication gate (self.authenticate), the task registry
(import_string), and the clock readings taken in get_task_result and
run_task. -/
structure ViewEnv where
  identity : Option Identity
  resolve : String → ResolveOutcome
  nowStart : Nat
  nowFinish : Nat

/-- Observable outcome of TaskView.post: the response if one was returned,
the exception if one propagated, the steps performed in order, the lifecycle
events emitted, and the CloudTaskResult if one was constructed. -/
structure PostOutcome where
  response : Option Response
  raised : Option ViewError
  trace : List Step
  events : List Event
  result : Option CloudTaskResult

/-- views.py TaskView.post: authenticate, parse, validate, resolve, build the
result, run the task, respond 400 on FAILED else 200; absent identity
responds 401 immediately. -/
def TaskView.post (env : ViewEnv) (req : ViewRequest) : PostOutcome :=
  match env.identity with
  | none =>
    { response := some ⟨401, false⟩, raised := none, trace := [.auth],
      events := [], result := none }
  | some _ =>
    match TaskView.parse_content req.body with
    | .error e =>
      { response := none, raised := some e, trace := [.auth, .parse],
        events := [], result := none }
    | .ok d =>
      match TaskView.validate_input d with
      | .error e =>
        { response := none, raised := some e,
          trace := [.auth, .parse, .validate], events := [], result := none }
      | .ok data =>
        match TaskView.get_task env.resolve data with
        | .error e =>
          { response := none, raised := some e,
            trace := [.auth, .parse, .validate, .resolve], events := [],
            result := none }
        | .ok task =>
          match TaskView.get_task_result req data task env.nowStart with
          | .error e =>
            { response := none, raised := some e,
              trace := [.auth, .parse, .validate, .resolve, .buildResult],
              events := [], result := none }
          | .ok r0 =>
            let rpair := TaskView.run_task r0 data env.nowFinish
            { response :=
                some (if rpair.1.status = .FAILED then ⟨400, false⟩ else ⟨200, true⟩),
              raised := none,
              trace := [.auth, .parse, .validate, .resolve, .buildResult, .run,
                .respond],
              events := rpair.2, result := some rpair.1 }

/-- A concrete task body that returns Python True, as the example task in the
repository tests does. -/
def sampleBody : List PyVal → List (String × PyVal) → ExecOutcome :=
  fun _ _ => .ret (.pbool true)

/-- A concrete registered task used in witnesses. -/
def sampleTask : TaskDef :=
  { module_path := "example.example.tasks.hello", queue_name := "default",
    run_after := none, takes_context := false, backend_alias := "default",
    body := sampleBody }

/-- A concrete task body that raises ValueError boom, as failing_task in the
repository tests does. -/
def failingBody : List PyVal → List (String × PyVal) → ExecOutcome :=
  fun _ _ => .raise ⟨"builtins", "ValueError", "boom"⟩

/-- A concrete registered task whose body raises. -/
def failingTask : TaskDef :=
  { module_path := "example.example.tasks.failing", queue_name := "default",
    run_after := none, takes_context := false, backend_alias := "default",
    body := failingBody }

/-- A fully populated backend configuration, mirroring the defaults used by
the repository's test settings. -/
def sampleOptions : BackendOptions :=
  { project_id := some "test-project", location := some "us-central1",
    credentials := none,
    default_target := some "https://example.com/task-handler",
    view_authn := some none, view_authn_params := [],
    enqueue_on_commit := false }

/-- The sample configuration with ENQUEUE_ON_COMMIT set. -/
def onCommitOptions : BackendOptions :=
  { sampleOptions with enqueue_on_commit := true }

/-- The sample configuration with the PROJECT_ID key absent. -/
def optionsNoProject : BackendOptions :=
  { sampleOptions with project_id := none }

/-- The sample configuration with the LOCATION key absent. -/
def optionsNoLocation : BackendOptions :=
  { sampleOptions with location := none }

/-- The sample configuration with the DEFAULT_TARGET key absent. -/
def optionsNoTarget : BackendOptions :=
  { sampleOptions with default_target := none }

/-- The sample configuration with the VIEW_AUTHN key absent. -/
def optionsNoAuthn : BackendOptions :=
  { sampleOptions with view_authn := none }

/-- A concrete ambient state for one enqueue call. -/
def sampleEnqueueEnv : EnqueueEnv :=
  { freshId := "abcdefgh01234567ijklmnop89ABCDEF", now := 100, createOk := true }

/-- A well-formed callback request carrying the sample task path, empty args
and kwargs, a task-name header, and no retry-count header. -/
def reqWellFormed : ViewRequest :=
  { body := .json [("task_path", .pstr "example.example.tasks.hello"),
                   ("args", .plist []), ("kwargs", .pdict [])],
    task_name_header := some "task-123", retry_count_header := none }

/-- The well-formed request with retry-count header 2. -/
def reqRetry2 : ViewRequest :=
  { reqWellFormed with retry_count_header := some "2" }

/-- The well-formed request with a non-numeric retry-count header. -/
def reqBadRetry : ViewRequest :=
  { reqWellFormed with retry_count_header := some "abc" }

/-- The well-formed request body content after validation. -/
def sampleInput : Input :=
  ⟨"example.example.tasks.hello", [], []⟩

/-- A task registry resolving every path to the sample task. -/
def resolveToSample : String → ResolveOutcome :=
  fun _ => .foundTask sampleTask

/-- A callback environment whose gate accepted the caller and whose registry
resolves to the succeeding sample task. -/
def envOkTask : ViewEnv :=
  { identity := some .anonymousUser, resolve := resolveToSample,
    nowStart := 5, nowFinish := 9 }

/-- A callback environment whose gate accepted the caller and whose registry
resolves to the failing task. -/
def envFailTask : ViewEnv :=
  { identity := some .anonymousUser, resolve := fun _ => .foundTask failingTask,
    nowStart := 5, nowFinish := 9 }

/-- A callback environment whose gate yielded no identity. -/
def envNoIdentity : ViewEnv :=
  { identity := none, resolve := resolveToSample, nowStart := 5, nowFinish := 9 }

/-- A callback environment whose registry cannot import the path. -/
def envImportFail : ViewEnv :=
  { identity := some .anonymousUser, resolve := fun _ => .importFail,
    nowStart := 5, nowFinish := 9 }

/-- A callback environment whose registry resolves the path to an object that
is not a task. -/
def envNonTask : ViewEnv :=
  { identity := some .anonymousUser, resolve := fun _ => .foundNonTask,
    nowStart := 5, nowFinish := 9 }

/-- A callback request whose task_path is the unresolvable not.a.path used by
the repository tests. -/
def reqNotAPath : ViewRequest :=
  { body := .json [("task_path", .pstr "not.a.path"),
                   ("args", .plist []), ("kwargs", .pdict [])],
    task_name_header := none, retry_count_header := none }

/-- C1: counterexample. A synchronous, successful enqueue of a valid task
returns a TaskResult whose status is READY, not ENQUEUED: enqueue sets
enqueued_at and emits the event but never writes the status field. -/
theorem C1_counterexample :
    CloudTasksBackend.get_enqueue_on_commit sampleOptions = false ∧
    sampleEnqueueEnv.createOk = true ∧
    (CloudTasksBackend.enqueue sampleOptions "default" sampleTask [] [] true
        sampleEnqueueEnv).map (fun out => out.result.status) = .ok .READY ∧
    TaskResultStatus.READY ≠ TaskResultStatus.ENQUEUED :=
  ⟨rfl, rfl, rfl, by decide⟩

/-- C1 (amended): for every valid task and arguments, when enqueue submits
the scheduling request synchronously and the external create-call succeeds,
the returned TaskResult still has status READY but carries a non-absent
enqueued_at (= now), and the task_enqueued lifecycle event carrying that
TaskResult is the one event emitted. -/
theorem C1_amended (o : BackendOptions) (backendAlias : String) (task : TaskDef)
    (args : List PyVal) (kwargs : List (String × PyVal)) (env : EnqueueEnv)
    (target : String)
    (hsync : CloudTasksBackend.get_enqueue_on_commit o = false)
    (hok : env.createOk = true)
    (htarget : o.default_target = some target) :
    ∃ out,
      CloudTasksBackend.enqueue o backendAlias task args kwargs true env = .ok out ∧
      out.result.status = .READY ∧
      out.result.enqueued_at = some env.now ∧
      out.events = [.task_enqueued out.result] := by
  have h1 : CloudTasksBackend.get_default_target o = .ok target := by
    unfold CloudTasksBackend.get_default_target
    rw [htarget]
  unfold CloudTasksBackend.enqueue runEnqueueHook
  rw [h1, hsync, hok]
  exact ⟨_, rfl, rfl, rfl, rfl⟩

/-- C1 (amended) witness: the amended statement at the concrete sample
configuration and task. -/
theorem C1_amended_witness :
    ∃ out,
      CloudTasksBackend.enqueue sampleOptions "default" sampleTask [] [] true
        sampleEnqueueEnv = .ok out ∧
      out.result.status = .READY ∧
      out.result.enqueued_at = some sampleEnqueueEnv.now ∧
      out.events = [.task_enqueued out.result] :=
  C1_amended sampleOptions "default" sampleTask [] [] sampleEnqueueEnv
    "https://example.com/task-handler" rfl rfl rfl

/-- C2: evaluation of the bearer-token authenticator at the divergent input.
A missing Authorization header returns None, and a header whose second word
fails verification returns None; but the header "invalid" — a malformed
credential with no space-separated second word, the exact input of the
repository test test_invalid_authorization_header_returns_none — makes
authenticate raise IndexError at token.split(" ")[1], which sits before the
try block, instead of returning None. -/
theorem C2_authenticate_eval :
    OIDCTokenAuth.authenticate none (fun _ => .raise) none = .ok none ∧
    OIDCTokenAuth.authenticate none (fun _ => .raise) (some "Token invalid") =
      .ok none ∧
    OIDCTokenAuth.authenticate none (fun _ => .raise) (some "invalid") =
      .error .indexError :=
  ⟨rfl, rfl, rfl⟩

/-- C3: evaluation of the configuration getters at configurations missing one
required setting each. get_default_target and get_view_authn raise
ImproperlyConfigured as claimed, but get_project_id and get_location silently
return None — their return type shows they can raise nothing — although the
repository tests test_it_gathers_project_id and test_it_gathers_location
assert that they raise ImproperlyConfigured. -/
theorem C3_missing_settings_eval :
    CloudTasksBackend.get_project_id optionsNoProject = none ∧
    CloudTasksBackend.get_location optionsNoLocation = none ∧
    CloudTasksBackend.get_default_target optionsNoTarget =
      .error (.improperlyConfigured "The default target must be specified.") ∧
    CloudTasksBackend.get_view_authn optionsNoAuthn =
      .error (.improperlyConfigured
        "The view authentication class must be specified. To turn off authentication, set VIEW_AUTHN to None.") :=
  ⟨rfl, rfl, rfl, rfl⟩

/-- C9: with ENQUEUE_ON_COMMIT configured, enqueue sends no create_task
request and emits no event synchronously; the returned TaskResult is READY
with enqueued_at absent; exactly one commit hook is registered, and running
it at commit time sends exactly one create_task request, while a rollback
discards the hooks and sends none. -/
theorem C9_enqueue_on_commit (o : BackendOptions) (backendAlias : String)
    (task : TaskDef) (args : List PyVal) (kwargs : List (String × PyVal))
    (env : EnqueueEnv) (target : String) (commitNow : Nat)
    (hoc : CloudTasksBackend.get_enqueue_on_commit o = true)
    (htarget : o.default_target = some target) :
    ∃ out,
      CloudTasksBackend.enqueue o backendAlias task args kwargs true env = .ok out ∧
      out.requests = [] ∧
      out.events = [] ∧
      out.result.status = .READY ∧
      out.result.enqueued_at = none ∧
      out.hooks.length = 1 ∧
      (∃ req ev, commitHooks out.hooks commitNow true = .ok ([req], [ev])) ∧
      rollbackHooks out.hooks = ([], []) := by
  have h1 : CloudTasksBackend.get_default_target o = .ok target := by
    unfold CloudTasksBackend.get_default_target
    rw [htarget]
  unfold CloudTasksBackend.enqueue
  rw [h1, hoc]
  exact ⟨_, rfl, rfl, rfl, rfl, rfl, rfl, ⟨_, _, rfl⟩, rfl⟩

/-- C9 witness: the deferred-enqueue property at the concrete sample
configuration with ENQUEUE_ON_COMMIT set. -/
theorem C9_enqueue_on_commit_witness :
    ∃ out,
      CloudTasksBackend.enqueue onCommitOptions "default" sampleTask [] [] true
        sampleEnqueueEnv = .ok out ∧
      out.requests = [] ∧
      out.events = [] ∧
      out.result.status = .READY ∧
      out.result.enqueued_at = none ∧
      out.hooks.length = 1 ∧
      (∃ req ev, commitHooks out.hooks 200 true = .ok ([req], [ev])) ∧
      rollbackHooks out.hooks = ([], []) :=
  C9_enqueue_on_commit onCommitOptions "default" sampleTask [] [] sampleEnqueueEnv
    "https://example.com/task-handler" 200 rfl rfl

/-- The raised message is an infix of the formatted traceback string. -/
theorem message_infix_traceback (e : ExcInfo) :
    e.message.data <:+: (get_exception_traceback e).data := by
  refine ⟨("Traceback (most recent call last):\n" ++ e.module ++ "." ++ e.qualname
    ++ ": ").data, "\n".data, ?_⟩
  simp [get_exception_traceback, format_exception_str, String.data_append,
    List.append_assoc]

/-- C4: an authenticated, well-formed callback whose task body raises yields
a TaskResult with status FAILED, exactly one error record carrying the
exception's class identifier and a formatted traceback containing the raised
message, finished_at set, a task_finished event among the emitted events, and
a 400 response with success false. -/
theorem C4_task_body_raises (env : ViewEnv) (req : ViewRequest)
    (d : List (String × PyVal)) (data : Input) (task : TaskDef) (e : ExcInfo)
    (ident : Identity) (rc : Int)
    (hid : env.identity = some ident)
    (hbody : req.body = .json d)
    (hval : TaskView.validate_input d = .ok data)
    (hres : env.resolve data.task_path = .foundTask task)
    (hrc : parseRetryCount req.retry_count_header = .ok rc)
    (hrun : task.body data.args data.kwargs = .raise e) :
    ∃ r, (TaskView.post env req).result = some r ∧
      r.status = .FAILED ∧
      r.errors = [⟨get_module_path e, get_exception_traceback e⟩] ∧
      e.message.data <:+: (get_exception_traceback e).data ∧
      r.finished_at = some env.nowFinish ∧
      Event.task_finished r ∈ (TaskView.post env req).events ∧
      (TaskView.post env req).response = some ⟨400, false⟩ := by
  simp only [TaskView.post, hid, hbody, TaskView.parse_content, hval,
    TaskView.get_task, hres, TaskView.get_task_result, hrc, TaskView.run_task,
    hrun, ite_self]
  refine ⟨_, rfl, rfl, by simp, message_infix_traceback e, rfl, by simp, rfl⟩

/-- C4 witness: the failing-body property at the concrete failing task and
well-formed request. -/
theorem C4_task_body_raises_witness :
    ∃ r, (TaskView.post envFailTask reqWellFormed).result = some r ∧
      r.status = .FAILED ∧
      r.errors = [⟨get_module_path ⟨"builtins", "ValueError", "boom"⟩,
        get_exception_traceback ⟨"builtins", "ValueError", "boom"⟩⟩] ∧
      ("boom" : String).data <:+:
        (get_exception_traceback ⟨"builtins", "ValueError", "boom"⟩).data ∧
      r.finished_at = some envFailTask.nowFinish ∧
      Event.task_finished r ∈ (TaskView.post envFailTask reqWellFormed).events ∧
      (TaskView.post envFailTask reqWellFormed).response = some ⟨400, false⟩ :=
  C4_task_body_raises envFailTask reqWellFormed _ sampleInput failingTask
    ⟨"builtins", "ValueError", "boom"⟩ .anonymousUser 0 rfl rfl rfl rfl rfl rfl

/-- C5: an authenticated, well-formed callback whose task body returns
normally yields a TaskResult with status SUCCESSFUL whose return_value is the
returned value, finished_at set, and a 200 response with success true. -/
theorem C5_task_body_returns (env : ViewEnv) (req : ViewRequest)
    (d : List (String × PyVal)) (data : Input) (task : TaskDef) (v : PyVal)
    (ident : Identity) (rc : Int)
    (hid : env.identity = some ident)
    (hbody : req.body = .json d)
    (hval : TaskView.validate_input d = .ok data)
    (hres : env.resolve data.task_path = .foundTask task)
    (hrc : parseRetryCount req.retry_count_header = .ok rc)
    (hrun : task.body data.args data.kwargs = .ret v) :
    ∃ r, (TaskView.post env req).result = some r ∧
      r.status = .SUCCESSFUL ∧
      r.return_value = some v ∧
      r.finished_at = some env.nowFinish ∧
      (TaskView.post env req).response = some ⟨200, true⟩ := by
  simp only [TaskView.post, hid, hbody, TaskView.parse_content, hval,
    TaskView.get_task, hres, TaskView.get_task_result, hrc, TaskView.run_task,
    hrun, ite_self]
  exact ⟨_, rfl, rfl, rfl, rfl, rfl⟩

/-- C5 witness: the successful-body property at the concrete sample task and
well-formed request. -/
theorem C5_task_body_returns_witness :
    ∃ r, (TaskView.post envOkTask reqWellFormed).result = some r ∧
      r.status = .SUCCESSFUL ∧
      r.return_value = some (.pbool true) ∧
      r.finished_at = some envOkTask.nowFinish ∧
      (TaskView.post envOkTask reqWellFormed).response = some ⟨200, true⟩ :=
  C5_task_body_returns envOkTask reqWellFormed _ sampleInput sampleTask
    (.pbool true) .anonymousUser 0 rfl rfl rfl rfl rfl rfl

/-- C6: for every callback reaching TaskResult construction, a retry-count
header carrying integer value n gives retry_count = n and attempts = n + 1,
and an absent header gives retry_count = 0 and attempts = 1. -/
theorem C6_retry_count (req : ViewRequest) (data : Input) (task : TaskDef)
    (nowStart : Nat) :
    (∀ s n, req.retry_count_header = some s → pyIntOfString s = some n →
      ∃ r, TaskView.get_task_result req data task nowStart = .ok r ∧
        r.retry_count = n ∧ r.attempts = n + 1) ∧
    (req.retry_count_header = none →
      ∃ r, TaskView.get_task_result req data task nowStart = .ok r ∧
        r.retry_count = 0 ∧ r.attempts = 1) := by
  constructor
  · intro s n hs hp
    have hrc : parseRetryCount req.retry_count_header = .ok n := by
      simp only [parseRetryCount, hs, hp]
    unfold TaskView.get_task_result
    rw [hrc]
    exact ⟨_, rfl, rfl, rfl⟩
  · intro h
    have hrc : parseRetryCount req.retry_count_header = .ok 0 := by
      simp only [parseRetryCount, h]
    unfold TaskView.get_task_result
    rw [hrc]
    exact ⟨_, rfl, rfl, rfl⟩

/-- C6 witness: the retry-count property at header value 2 and at the absent
header. -/
theorem C6_retry_count_witness :
    (∃ r, TaskView.get_task_result reqRetry2 sampleInput sampleTask 5 = .ok r ∧
      r.retry_count = 2 ∧ r.attempts = 3) ∧
    (∃ r, TaskView.get_task_result reqWellFormed sampleInput sampleTask 5 = .ok r ∧
      r.retry_count = 0 ∧ r.attempts = 1) :=
  ⟨(C6_retry_count reqRetry2 sampleInput sampleTask 5).1 "2" 2 rfl rfl,
   (C6_retry_count reqWellFormed sampleInput sampleTask 5).2 rfl⟩

/-- C7: the receiver's first step is always the authentication gate, and when
the gate yields an absent identity the response is 401 with success false and
the body-parsing step never happens. -/
theorem C7_auth_before_parse (env : ViewEnv) (req : ViewRequest) :
    (TaskView.post env req).trace.head? = some .auth ∧
    (env.identity = none →
      (TaskView.post env req).response = some ⟨401, false⟩ ∧
      Step.parse ∉ (TaskView.post env req).trace) := by
  refine ⟨?_, ?_⟩
  · cases hid : env.identity with
    | none => simp [TaskView.post, hid]
    | some ident =>
      unfold TaskView.post
      rw [hid]
      repeat' split
      all_goals rfl
  · intro h
    refine ⟨?_, ?_⟩ <;> simp [TaskView.post, h]

/-- C7 witness: the absent-identity half of the ordering property at the
concrete gate-refusing environment. -/
theorem C7_auth_before_parse_witness :
    (TaskView.post envNoIdentity reqWellFormed).response = some ⟨401, false⟩ ∧
    Step.parse ∉ (TaskView.post envNoIdentity reqWellFormed).trace :=
  (C7_auth_before_parse envNoIdentity reqWellFormed).2 rfl

/-- C8: evaluation of the receiver at the two resolution failures of the
repository tests. A task_path that resolves to a non-task raises
SuspiciousOperation, but a task_path that does not resolve at all raises the
ImportError propagating out of import_string, not a SuspiciousOperation; in
both cases no TaskResult is constructed and execution is never attempted. -/
theorem C8_resolution_eval :
    (TaskView.post envImportFail reqNotAPath).raised = some .importError ∧
    (TaskView.post envImportFail reqNotAPath).result = none ∧
    Step.buildResult ∉ (TaskView.post envImportFail reqNotAPath).trace ∧
    (TaskView.post envNonTask reqNotAPath).raised =
      some (.suspiciousOperation "not.a.path is not a valid task.") ∧
    (TaskView.post envNonTask reqNotAPath).result = none ∧
    Step.buildResult ∉ (TaskView.post envNonTask reqNotAPath).trace :=
  ⟨rfl, rfl, by decide, rfl, rfl, by decide⟩

/-- C10: a present but non-numeric retry-count header makes get_task_result
raise the int() ValueError out of post: no TaskResult is constructed and no
response is produced. -/
theorem C10_nonnumeric_retry_header (env : ViewEnv) (req : ViewRequest)
    (d : List (String × PyVal)) (data : Input) (task : TaskDef)
    (ident : Identity) (s : String)
    (hid : env.identity = some ident)
    (hbody : req.body = .json d)
    (hval : TaskView.validate_input d = .ok data)
    (hres : env.resolve data.task_path = .foundTask task)
    (hheader : req.retry_count_header = some s)
    (hbad : pyIntOfString s = none) :
    (TaskView.post env req).raised =
      some (.valueError ("invalid literal for int() with base 10: " ++ s)) ∧
    (TaskView.post env req).result = none ∧
    (TaskView.post env req).response = none := by
  simp only [TaskView.post, hid, hbody, TaskView.parse_content, hval,
    TaskView.get_task, hres, TaskView.get_task_result, parseRetryCount,
    hheader, hbad]
  exact ⟨trivial, trivial, trivial⟩

/-- C10 witness: the non-numeric header property at the concrete header value
abc. -/
theorem C10_nonnumeric_retry_header_witness :
    (TaskView.post envOkTask reqBadRetry).raised =
      some (.valueError ("invalid literal for int() with base 10: " ++ "abc")) ∧
    (TaskView.post envOkTask reqBadRetry).result = none ∧
    (TaskView.post envOkTask reqBadRetry).response = none :=
  C10_nonnumeric_retry_header envOkTask reqBadRetry _ sampleInput sampleTask
    .anonymousUser "abc" rfl rfl rfl rfl rfl rfl
